import Mathlib

/-!
Verification of the CogniTriage frontend (job submission / status polling /
result rendering lifecycle) against its specification.

The TypeScript sources are shallowly embedded here:
* the status pollers of `App.tsx` (useEffect poll) and of the Dashboard page,
  as step functions over an explicit poller state folded over the observed
  sequence of status responses;
* the client-side submission gates (`canSubmit` / `startSubmit`) of both pages;
* the `submitCase` API wrapper;
* the rendering of imaging findings (App evidence panel, Results page) with
  JavaScript property-access-on-undefined modelled as a thrown `TypeError`;
* `riskColor` and the Trials page request body.
-/

/-- Lifecycle state reported by `/api/status/{job_id}`
(`status: queued|running|completed|failed` in `lib/api.ts`). -/
inductive JobPhase
  | queued
  | running
  | completed
  | failed
deriving DecidableEq, Repr

/-- Observable state of one polling loop: the last stored `StatusResponse`
(projected to its lifecycle phase), how many `/api/result` fetches were
issued, whether a result was stored, whether the interval timer is still
scheduled (`pollRef.current != null`), how many `/api/status` requests were
issued, and how many tick failures were logged via `console.error`. -/
structure PollerState where
  statusStored : Option JobPhase
  resultFetches : Nat
  resultStored : Bool
  intervalActive : Bool
  statusRequests : Nat
  loggedErrors : Nat
deriving DecidableEq, Repr

/-- Poller state right after the effect installs the interval
(`App.tsx` lines 100-123: `poll(); const id = window.setInterval(poll, 1200)`). -/
def initPoller : PollerState :=
  { statusStored := none, resultFetches := 0, resultStored := false,
    intervalActive := true, statusRequests := 0, loggedErrors := 0 }

/-- One tick response: either the parsed status (`.ok`) or a network
error thrown by `getStatus` (`.error`). -/
abbrev TickResponse := Except Unit JobPhase

/-- Body of `poll` in `App.tsx` (lines 102-115), given the response of the
`getStatus` call issued by this tick: on success the status is stored
wholesale (`setStatus(st)`); if it is `completed` or `failed`, `getResult`
is called once, the result stored, and the interval cleared; on a network
error the failure is logged (`console.error(e)`) and nothing else changes. -/
def appPollBody (s : PollerState) (resp : TickResponse) : PollerState :=
  match resp with
  | .error _ => { s with loggedErrors := s.loggedErrors + 1 }
  | .ok st =>
      let s1 := { s with statusStored := some st }
      if st = .completed ∨ st = .failed then
        { s1 with
          resultFetches := s1.resultFetches + 1
          resultStored := true
          intervalActive := false }
      else s1

/-- A scheduled tick of the App poller: it runs (issuing one `/api/status`
request) only while the interval is still installed. -/
def appStep (s : PollerState) (resp : TickResponse) : PollerState :=
  if s.intervalActive then
    appPollBody { s with statusRequests := s.statusRequests + 1 } resp
  else s

/-- The App polling loop over a finite sequence of tick responses. -/
def appRun (resps : List TickResponse) : PollerState :=
  resps.foldl appStep initPoller

/-- Body of `poll` in the Dashboard page (part_004 lines 153-179): status is
stored on every successful tick, but only `status === 'completed'` triggers
the result fetch and `clearInterval`; `failed` is not treated as terminal.
Network errors are logged (`console.error`) and otherwise ignored. -/
def dashPollBody (s : PollerState) (resp : TickResponse) : PollerState :=
  match resp with
  | .error _ => { s with loggedErrors := s.loggedErrors + 1 }
  | .ok st =>
      let s1 := { s with statusStored := some st }
      if st = .completed then
        { s1 with
          resultFetches := s1.resultFetches + 1
          resultStored := true
          intervalActive := false }
      else s1

/-- A scheduled tick of the Dashboard poller. -/
def dashStep (s : PollerState) (resp : TickResponse) : PollerState :=
  if s.intervalActive then
    dashPollBody { s with statusRequests := s.statusRequests + 1 } resp
  else s

/-- The Dashboard polling loop over a finite sequence of tick responses. -/
def dashRun (resps : List TickResponse) : PollerState :=
  resps.foldl dashStep initPoller

/-- The fixed status sequence of the spec scenario, all ticks succeeding. -/
def seqQRRC : List TickResponse :=
  [.ok .queued, .ok .running, .ok .running, .ok .completed]

/-- A submission request as encoded by `startSubmit`: the files appended to
the `FormData`, the `moca` part `{total}`, the `meta` part `{age, sex}`.
Files are identified by name; score and age are JavaScript numbers,
modelled as rationals. -/
structure SubmitRequest where
  files : List String
  moca_total : ℚ
  age : ℚ
  sex : String
deriving DecidableEq, Repr

/-- `canSubmit` of `App.tsx` (lines 83-85). The `moca` and `age` React states
have type `number | ""`; `none` stands for the empty-string state, so
`typeof x === "number"` is `Option.isSome`. -/
def appCanSubmit (files : List String) (moca age : Option ℚ) : Bool :=
  decide (files.length > 0) &&
    (match moca with
     | some m => decide (0 ≤ m) && decide (m ≤ 30)
     | none => false) &&
    (match age with
     | some a => decide (0 < a)
     | none => false)

/-- `startSubmit` of `App.tsx` (lines 87-98): returns early when `canSubmit`
is false (no request), otherwise builds the single submission request.
`Number("")` is `0`, matching `getD 0` on the unreachable empty branch. -/
def appStartSubmit (files : List String) (moca age : Option ℚ) (sex : String) :
    Option SubmitRequest :=
  if appCanSubmit files moca age then
    some { files := files, moca_total := moca.getD 0, age := age.getD 0, sex := sex }
  else none

/-- `canSubmit` of the Dashboard page (part_004 lines 114-119): a non-numeric
(empty) score or age counts as valid there; only a numeric value out of
range disables submission. -/
def dashCanSubmit (files : List String) (moca age : Option ℚ) : Bool :=
  let hasFiles := decide (files.length > 0)
  let mocaValid := match moca with
    | some m => decide (0 ≤ m) && decide (m ≤ 30)
    | none => true
  let ageValid := match age with
    | some a => decide (0 < a)
    | none => true
  hasFiles && mocaValid && ageValid

/-- `startSubmit` of the Dashboard page (part_004 lines 121-147): early
return when the gate is false; otherwise one request with defaults 24 / 70
substituted for non-numeric score / age. -/
def dashStartSubmit (files : List String) (moca age : Option ℚ) (sex : String) :
    Option SubmitRequest :=
  if dashCanSubmit files moca age then
    some { files := files, moca_total := moca.getD 24, age := age.getD 70, sex := sex }
  else none

/-- An HTTP response as the `fetch` wrappers see it: the `ok` flag, the
numeric HTTP status, and the parsed JSON body. -/
structure FetchResponse (α : Type) where
  ok : Bool
  status : Nat
  body : α
deriving DecidableEq, Repr

/-- Parsed body of `/api/submit` (`SubmitResponse` in `lib/api.ts`). -/
structure SubmitResponse where
  job_id : String
deriving DecidableEq, Repr

/-- The error thrown by `submitCase` on `!res.ok`; its message
`Submit failed: ${res.status}` carries the HTTP status. -/
structure SubmissionError where
  httpStatus : Nat
deriving DecidableEq, Repr

/-- `submitCase` of `lib/api.ts` (lines 31-43), as a function of the single
response to its one `fetch`: throws a `SubmissionError` carrying the HTTP
status when the response is non-success, otherwise returns the parsed body. -/
def submitCase (res : FetchResponse SubmitResponse) :
    Except SubmissionError SubmitResponse :=
  if res.ok = false then .error { httpStatus := res.status }
  else .ok res.body

/-- `submitCase` against the stream of responses the network would serve:
it consumes exactly one response — success or failure — and leaves the rest
untouched, reflecting that the function contains a single `fetch` and no
retry loop. -/
def submitCaseRun (responses : List (FetchResponse SubmitResponse)) :
    Option (Except SubmissionError SubmitResponse × List (FetchResponse SubmitResponse)) :=
  match responses with
  | [] => none
  | r :: rest => some (submitCase r, rest)

/-- `riskColor` of `App.tsx` (lines 23-36). The TypeScript `switch` on an
optional string dispatches by equality against the four literal cases and
falls through to the zinc default for everything else (including
`undefined`, modelled as `none`). -/
def appRiskColor (tier : Option String) : String :=
  if tier = some "LOW" then "bg-green-100 text-green-800 border-green-300"
  else if tier = some "MODERATE" then "bg-yellow-100 text-yellow-800 border-yellow-300"
  else if tier = some "HIGH" then "bg-orange-100 text-orange-800 border-orange-300"
  else if tier = some "URGENT" then "bg-red-100 text-red-800 border-red-300"
  else "bg-zinc-100 text-zinc-800 border-zinc-300"

/-- `riskColor` of the Dashboard page (part_004 lines 9-22): the switch body
is identical to the one in `App.tsx` (its local `RiskTier` type names
`CRITICAL` instead of `URGENT`, but the runtime cases are the same four). -/
def dashRiskColor (tier : Option String) : String :=
  if tier = some "LOW" then "bg-green-100 text-green-800 border-green-300"
  else if tier = some "MODERATE" then "bg-yellow-100 text-yellow-800 border-yellow-300"
  else if tier = some "HIGH" then "bg-orange-100 text-orange-800 border-orange-300"
  else if tier = some "URGENT" then "bg-red-100 text-red-800 border-red-300"
  else "bg-zinc-100 text-zinc-800 border-zinc-300"

/-- The `hippocampal_volumes_ml` object of a result note. Fields are optional
to reflect that the backend payload shape is not guaranteed. -/
structure HippoVolumes where
  left_ml : Option ℚ
  right_ml : Option ℚ
  asymmetry_ml : Option ℚ
deriving DecidableEq, Repr

/-- The `percentiles` object of a result note. -/
structure Percentiles where
  left_pct : Option ℚ
  right_pct : Option ℚ
deriving DecidableEq, Repr

/-- The `imaging_findings` object of a result note (`note` is typed `any`
in `lib/api.ts`, so every field may be absent). -/
structure ImagingFindings where
  hippocampal_volumes_ml : Option HippoVolumes
  mta_score : Option ℚ
  percentiles : Option Percentiles
deriving DecidableEq, Repr

/-- The empty object `{}` read as imaging findings: every property absent. -/
def emptyImagingFindings : ImagingFindings :=
  { hippocampal_volumes_ml := none, mta_score := none, percentiles := none }

/-- The `note` object of a result payload (only the part the imaging views
read). -/
structure NoteData where
  imaging_findings : Option ImagingFindings
deriving DecidableEq, Repr

/-- The `result` object of `/api/result/{job_id}` (`ResultResponse.result`),
projected to the fields the imaging views read. -/
structure ResultBody where
  note : Option NoteData
deriving DecidableEq, Repr

/-- A JavaScript runtime exception raised during rendering. -/
inductive JsError
  | typeError
deriving DecidableEq, Repr

/-- JavaScript property access `o.f`: reading a property of `undefined`
throws a `TypeError`, otherwise the property value (itself possibly
`undefined`) is produced. -/
def jsAccess {α β : Type} (o : Option α) (f : α → β) : Except JsError β :=
  match o with
  | none => .error .typeError
  | some x => .ok (f x)

/-- Decimal-free rendering of a JavaScript number (rational). -/
def ratText (q : ℚ) : String :=
  if q.den = 1 then toString q.num else toString q.num ++ "/" ++ toString q.den

/-- React text interpolation of a possibly-undefined number: `undefined`
renders as empty text, a number as its text. -/
def renderJsNum (v : Option ℚ) : String :=
  match v with
  | none => ""
  | some q => ratText q

/-- The `evidence_panel` section of `App.tsx` (lines 315-341), applied to
`result?.result`: when absent it renders the placeholder sentence; when
present it dereferences
`result.result.note.imaging_findings.hippocampal_volumes_ml.left_ml` (and
the sibling fields) without optional chaining, so a missing link in the
chain raises a `TypeError` instead of rendering. -/
def evidencePanelApp (result : Option ResultBody) : Except JsError (List String) :=
  match result with
  | none => .ok ["Upload data and start analysis to view imaging findings."]
  | some body => do
    let ifs ← jsAccess body.note (fun n => n.imaging_findings)
    let hv ← jsAccess ifs (fun x => x.hippocampal_volumes_ml)
    let leftVal ← jsAccess hv (fun v => v.left_ml)
    let rightVal ← jsAccess hv (fun v => v.right_ml)
    let mtaVal ← jsAccess ifs (fun x => x.mta_score)
    let pcts ← jsAccess ifs (fun x => x.percentiles)
    let leftPct ← jsAccess pcts (fun p => p.left_pct)
    let rightPct ← jsAccess pcts (fun p => p.right_pct)
    pure [renderJsNum leftVal, renderJsNum rightVal, renderJsNum mtaVal,
          renderJsNum leftPct, renderJsNum rightPct]

/-- The JavaScript fallback `x || 'N/A'` on a possibly-undefined number:
`undefined` — and, `0` being falsy, zero — render as the placeholder. -/
def jsOrNA (v : Option ℚ) : String :=
  match v with
  | none => "N/A"
  | some q => if q = 0 then "N/A" else ratText q

/-- The imaging-findings card of the Results page (part of the claimed
rendering sources): `imagingFindings = result.note?.imaging_findings || {}`,
then optional-chained field reads with `|| 'N/A'` fallbacks (and an
`!== undefined` test for the MTA score). It is total — no field access can
throw. Output order follows the page: left volume, left percentile, right
volume, right percentile, asymmetry, MTA score. -/
def resultsImaging (body : ResultBody) : List String :=
  let ifs := (body.note.bind (fun n => n.imaging_findings)).getD emptyImagingFindings
  let hv := ifs.hippocampal_volumes_ml
  [jsOrNA (hv.bind (fun v => v.left_ml)),
   jsOrNA (ifs.percentiles.bind (fun p => p.left_pct)),
   jsOrNA (hv.bind (fun v => v.right_ml)),
   jsOrNA (ifs.percentiles.bind (fun p => p.right_pct)),
   jsOrNA (hv.bind (fun v => v.asymmetry_ml)),
   match ifs.mta_score with
   | some q => ratText q
   | none => "N/A"]

/-- Patient session state as held by the app context: selected files,
score and age inputs (`number | ""`), and sex. -/
structure PatientData where
  files : List String
  moca : Option ℚ
  age : Option ℚ
  sex : String
deriving DecidableEq, Repr

/-- Body of the `POST /api/trials` request sent by the Trials page. -/
structure TrialsRequest where
  risk_tier : String
  imaging_findings : ImagingFindings
  moca_score : ℚ
  age : ℚ
  sex : String
deriving DecidableEq, Repr

/-- `searchTrials` of `Trials.tsx` (lines 20-46), as a function of every
piece of session state an invocation could observe: the patient data and
analysis result of the app context and the page's own `searchQuery` state.
The source builds the body from literals only — none of these inputs is
read. -/
def searchTrialsBody (patient : PatientData) (analysis : Option ResultBody)
    (searchQuery : String) : TrialsRequest :=
  { risk_tier := "MODERATE", imaging_findings := emptyImagingFindings,
    moca_score := 24, age := 70, sex := "F" }

/-- Observable session state around the polling effect of `App.tsx`:
the current `jobId`, the handle the installed interval polls for (`none`
when no timer is scheduled), the handles of `getStatus` requests currently
in flight, the handle whose status response is currently stored in
`status`, and the log of all status requests issued so far. Handles are
numbered in submission order. -/
structure SessionState where
  jobId : Option Nat
  timerFor : Option Nat
  pending : List Nat
  statusOf : Option Nat
  requestLog : List Nat
deriving DecidableEq, Repr

/-- Events of the polling session: an interval tick firing, a non-terminal
status response for handle `h` arriving (its `await getStatus` resolving,
followed by `setStatus`), and a submission completing with new handle `h`. -/
inductive SessionEv
  | tick
  | resolve (h : Nat)
  | submit (h : Nat)
deriving DecidableEq, Repr

/-- Small-step semantics of the `App.tsx` session (lines 87-123).
A tick issues a status request for the handle its interval was installed
for. A resolving response executes the rest of `poll`: `setStatus(st)`
stores the response unconditionally — the closure captured its handle, and
clearing the interval does not abort an in-flight request. A submission
runs `startSubmit` (resetting `jobId`/`status`/`result`, which tears the
old effect down and clears its interval) and then assigns the new handle,
whose effect issues an immediate poll and installs a new interval. -/
def sessionStep (s : SessionState) : SessionEv → SessionState
  | .tick =>
      match s.timerFor with
      | some h => { s with pending := s.pending ++ [h], requestLog := s.requestLog ++ [h] }
      | none => s
  | .resolve h =>
      if h ∈ s.pending then
        { s with pending := s.pending.erase h, statusOf := some h }
      else s
  | .submit h =>
      { s with
        jobId := some h
        timerFor := some h
        statusOf := none
        pending := s.pending ++ [h]
        requestLog := s.requestLog ++ [h] }

/-- A session run: the events folded over a starting state. -/
def sessionRun (s : SessionState) (evs : List SessionEv) : SessionState :=
  evs.foldl sessionStep s

/-- The idle session: no job, no timer, nothing in flight. -/
def initSession : SessionState :=
  { jobId := none, timerFor := none, pending := [], statusOf := none, requestLog := [] }

theorem appStep_inactive (s : PollerState) (r : TickResponse)
    (h : s.intervalActive = false) : appStep s r = s := by
  simp [appStep, h]

theorem appFold_inactive (post : List TickResponse) (s : PollerState)
    (h : s.intervalActive = false) : post.foldl appStep s = s := by
  induction post with
  | nil => rfl
  | cons r rest ih => rw [List.foldl_cons, appStep_inactive s r h]; exact ih

theorem appStep_nonterminal (s : PollerState) (p : JobPhase)
    (hp : p = .queued ∨ p = .running) (ha : s.intervalActive = true) :
    appStep s (.ok p) =
      { s with statusStored := some p, statusRequests := s.statusRequests + 1 } := by
  rcases hp with h | h <;> subst h <;> simp [appStep, appPollBody, ha]

theorem appStep_failed (s : PollerState) (ha : s.intervalActive = true) :
    appStep s (.ok .failed) =
      { s with
        statusStored := some JobPhase.failed
        statusRequests := s.statusRequests + 1
        resultFetches := s.resultFetches + 1
        resultStored := true
        intervalActive := false } := by
  simp [appStep, appPollBody, ha]

theorem appFold_nonterminal (pre : List JobPhase) (s : PollerState)
    (hpre : ∀ p ∈ pre, p = .queued ∨ p = .running) (ha : s.intervalActive = true) :
    ((pre.map Except.ok).foldl appStep s).intervalActive = true ∧
    ((pre.map Except.ok).foldl appStep s).resultFetches = s.resultFetches ∧
    ((pre.map Except.ok).foldl appStep s).statusRequests = s.statusRequests + pre.length := by
  induction pre generalizing s with
  | nil => simpa using ha
  | cons p rest ih =>
      have hp : p = .queued ∨ p = .running := hpre p (by simp)
      have hrest : ∀ q ∈ rest, q = .queued ∨ q = .running := fun q hq => hpre q (by simp [hq])
      rw [List.map_cons, List.foldl_cons, appStep_nonterminal s p hp ha]
      have h2 := ih { s with statusStored := some p, statusRequests := s.statusRequests + 1 }
        hrest ha
      refine ⟨h2.1, h2.2.1, ?_⟩
      rw [h2.2.2]
      simp [List.length_cons]
      omega

theorem dashStep_noncompleted (s : PollerState) (p : JobPhase)
    (hp : p ≠ .completed) (ha : s.intervalActive = true) :
    dashStep s (.ok p) =
      { s with statusStored := some p, statusRequests := s.statusRequests + 1 } := by
  simp [dashStep, dashPollBody, ha, hp]

theorem dashFold_noncompleted (pre : List JobPhase) (s : PollerState)
    (hpre : ∀ p ∈ pre, p ≠ .completed) (ha : s.intervalActive = true) :
    ((pre.map Except.ok).foldl dashStep s).intervalActive = true ∧
    ((pre.map Except.ok).foldl dashStep s).resultFetches = s.resultFetches ∧
    ((pre.map Except.ok).foldl dashStep s).statusRequests = s.statusRequests + pre.length := by
  induction pre generalizing s with
  | nil => simpa using ha
  | cons p rest ih =>
      have hp : p ≠ .completed := hpre p (by simp)
      have hrest : ∀ q ∈ rest, q ≠ .completed := fun q hq => hpre q (by simp [hq])
      rw [List.map_cons, List.foldl_cons, dashStep_noncompleted s p hp ha]
      have h2 := ih { s with statusStored := some p, statusRequests := s.statusRequests + 1 }
        hrest ha
      refine ⟨h2.1, h2.2.1, ?_⟩
      rw [h2.2.2]
      simp [List.length_cons]
      omega

/-- C1 (amended): for a status sequence of non-terminal observations ending
in `failed`, the App poller fetches the result exactly once, cancels its
interval, and issues no status request beyond the failed tick (whatever
further ticks would have followed); the Dashboard poller, whose only
terminal case is `completed`, fetches no result on the same sequence and
leaves its interval active. -/
theorem c1_failed_run_behavior (pre : List JobPhase) (post : List TickResponse)
    (hpre : ∀ p ∈ pre, p = .queued ∨ p = .running) :
    (appRun (pre.map Except.ok ++ [Except.ok JobPhase.failed] ++ post)).resultFetches = 1 ∧
    (appRun (pre.map Except.ok ++ [Except.ok JobPhase.failed] ++ post)).intervalActive = false ∧
    (appRun (pre.map Except.ok ++ [Except.ok JobPhase.failed] ++ post)).statusRequests
      = pre.length + 1 ∧
    (dashRun (pre.map Except.ok ++ [Except.ok JobPhase.failed])).resultFetches = 0 ∧
    (dashRun (pre.map Except.ok ++ [Except.ok JobPhase.failed])).intervalActive = true := by
  have happ := appFold_nonterminal pre initPoller hpre rfl
  have hdash : ∀ p ∈ pre, p ≠ JobPhase.completed := by
    intro p hp
    rcases hpre p hp with h | h <;> subst h <;> simp
  have hdashFold := dashFold_noncompleted pre initPoller hdash rfl
  set sApp := (pre.map Except.ok).foldl appStep initPoller with hsApp
  set sDash := (pre.map Except.ok).foldl dashStep initPoller with hsDash
  have happFailed := appStep_failed sApp happ.1
  have hdashFailed := dashStep_noncompleted sDash JobPhase.failed (by simp) hdashFold.1
  constructor
  · rw [appRun, List.foldl_append, List.foldl_append, ← hsApp, List.foldl_cons,
      List.foldl_nil, happFailed, appFold_inactive post _ rfl]
    simp [happ.2.1, initPoller]
  constructor
  · rw [appRun, List.foldl_append, List.foldl_append, ← hsApp, List.foldl_cons,
      List.foldl_nil, happFailed, appFold_inactive post _ rfl]
  constructor
  · rw [appRun, List.foldl_append, List.foldl_append, ← hsApp, List.foldl_cons,
      List.foldl_nil, happFailed, appFold_inactive post _ rfl]
    simp [happ.2.2, initPoller]
  constructor
  · rw [dashRun, List.foldl_append, ← hsDash, List.foldl_cons, List.foldl_nil, hdashFailed]
    simp [hdashFold.2.1, initPoller]
  · rw [dashRun, List.foldl_append, ← hsDash, List.foldl_cons, List.foldl_nil, hdashFailed]
    exact hdashFold.1

/-- C1 witness: a concrete run `queued, failed` followed by one more
would-be tick, checked against the amended statement. -/
theorem c1_failed_run_behavior_witness :
    (appRun [Except.ok JobPhase.queued, Except.ok JobPhase.failed,
      Except.ok JobPhase.running]).resultFetches = 1 ∧
    (appRun [Except.ok JobPhase.queued, Except.ok JobPhase.failed,
      Except.ok JobPhase.running]).intervalActive = false ∧
    (appRun [Except.ok JobPhase.queued, Except.ok JobPhase.failed,
      Except.ok JobPhase.running]).statusRequests = 2 ∧
    (dashRun [Except.ok JobPhase.queued, Except.ok JobPhase.failed]).resultFetches = 0 ∧
    (dashRun [Except.ok JobPhase.queued, Except.ok JobPhase.failed]).intervalActive = true :=
  c1_failed_run_behavior [JobPhase.queued] [Except.ok JobPhase.running] (by decide)

/-- C1 counterexample: on the status sequence `queued, failed` the Dashboard
poller — one of the two pollers the claim covers — issues no result fetch
and does not cancel its interval, refuting the claim as stated. -/
theorem c1_counterexample :
    ¬ ((dashRun [Except.ok JobPhase.queued, Except.ok JobPhase.failed]).resultFetches = 1 ∧
       (dashRun [Except.ok JobPhase.queued, Except.ok JobPhase.failed]).intervalActive
         = false) := by
  intro h
  exact absurd h.1 (by decide)

/-- C5: on the status sequence `queued, running, running, completed` both
pollers issue exactly one result fetch; the fetch happens only on the
`completed` tick — after any proper prefix of the sequence no fetch has
been issued — and polling stops with the result stored. -/
theorem c5_qrrc_single_fetch :
    (appRun seqQRRC).resultFetches = 1 ∧
    (appRun seqQRRC).resultStored = true ∧
    (appRun seqQRRC).intervalActive = false ∧
    (appRun (seqQRRC.take 3)).resultFetches = 0 ∧
    (appRun (seqQRRC.take 2)).resultFetches = 0 ∧
    (appRun (seqQRRC.take 1)).resultFetches = 0 ∧
    (dashRun seqQRRC).resultFetches = 1 ∧
    (dashRun seqQRRC).resultStored = true ∧
    (dashRun seqQRRC).intervalActive = false ∧
    (dashRun (seqQRRC.take 3)).resultFetches = 0 ∧
    (dashRun (seqQRRC.take 2)).resultFetches = 0 ∧
    (dashRun (seqQRRC.take 1)).resultFetches = 0 :=
  ⟨rfl, rfl, rfl, rfl, rfl, rfl, rfl, rfl, rfl, rfl, rfl, rfl⟩

/-- C6: a tick whose status request fails with a network error logs the
failure and changes nothing else — stored status, result, fetch count and
the installed interval are untouched, so the loop runs again on the next
scheduled tick. Holds for both pollers from any still-polling state. -/
theorem c6_error_tick_harmless (s : PollerState) (ha : s.intervalActive = true) :
    (appStep s (.error ())).statusStored = s.statusStored ∧
    (appStep s (.error ())).resultFetches = s.resultFetches ∧
    (appStep s (.error ())).resultStored = s.resultStored ∧
    (appStep s (.error ())).intervalActive = true ∧
    (appStep s (.error ())).loggedErrors = s.loggedErrors + 1 ∧
    (dashStep s (.error ())).statusStored = s.statusStored ∧
    (dashStep s (.error ())).resultFetches = s.resultFetches ∧
    (dashStep s (.error ())).resultStored = s.resultStored ∧
    (dashStep s (.error ())).intervalActive = true ∧
    (dashStep s (.error ())).loggedErrors = s.loggedErrors + 1 := by
  simp [appStep, dashStep, appPollBody, dashPollBody, ha]

/-- C6 witness: the error-tick theorem evaluated at the initial polling
state. -/
theorem c6_error_tick_harmless_witness :
    (appStep initPoller (.error ())).statusStored = initPoller.statusStored ∧
    (appStep initPoller (.error ())).resultFetches = initPoller.resultFetches ∧
    (appStep initPoller (.error ())).resultStored = initPoller.resultStored ∧
    (appStep initPoller (.error ())).intervalActive = true ∧
    (appStep initPoller (.error ())).loggedErrors = initPoller.loggedErrors + 1 ∧
    (dashStep initPoller (.error ())).statusStored = initPoller.statusStored ∧
    (dashStep initPoller (.error ())).resultFetches = initPoller.resultFetches ∧
    (dashStep initPoller (.error ())).resultStored = initPoller.resultStored ∧
    (dashStep initPoller (.error ())).intervalActive = true ∧
    (dashStep initPoller (.error ())).loggedErrors = initPoller.loggedErrors + 1 :=
  c6_error_tick_harmless initPoller rfl

/-- C3: with zero files selected, both submission gates evaluate to false
and both `startSubmit` implementations return without issuing any request,
whatever the score, age and sex inputs are. -/
theorem c3_zero_files_rejected (moca age : Option ℚ) (sex : String) :
    appCanSubmit [] moca age = false ∧
    appStartSubmit [] moca age sex = none ∧
    dashCanSubmit [] moca age = false ∧
    dashStartSubmit [] moca age sex = none := by
  have h1 : appCanSubmit [] moca age = false := by
    simp [appCanSubmit]
  have h2 : dashCanSubmit [] moca age = false := by
    simp [dashCanSubmit]
  refine ⟨h1, ?_, h2, ?_⟩
  · simp [appStartSubmit, h1]
  · simp [dashStartSubmit, h2]

/-- C4: a numeric MoCA score outside `[0, 30]`, or a numeric non-positive
age, makes both client-side gates false, and both `startSubmit`
implementations perform no submission. -/
theorem c4_out_of_range_rejected (files : List String) (moca age : Option ℚ)
    (sex : String)
    (h : (∃ m, moca = some m ∧ (m < 0 ∨ 30 < m)) ∨ (∃ a, age = some a ∧ a ≤ 0)) :
    appCanSubmit files moca age = false ∧
    appStartSubmit files moca age sex = none ∧
    dashCanSubmit files moca age = false ∧
    dashStartSubmit files moca age sex = none := by
  have h1 : appCanSubmit files moca age = false := by
    rcases h with ⟨m, hm, hr⟩ | ⟨a, ha, hr⟩
    · subst hm
      rcases hr with hr | hr <;>
        simp [appCanSubmit, decide_eq_false, not_le.mpr hr, Bool.and_eq_false_iff]
    · subst ha
      simp [appCanSubmit, decide_eq_false, not_lt.mpr hr, Bool.and_eq_false_iff]
  have h2 : dashCanSubmit files moca age = false := by
    rcases h with ⟨m, hm, hr⟩ | ⟨a, ha, hr⟩
    · subst hm
      rcases hr with hr | hr <;>
        simp [dashCanSubmit, decide_eq_false, not_le.mpr hr, Bool.and_eq_false_iff]
    · subst ha
      simp [dashCanSubmit, decide_eq_false, not_lt.mpr hr, Bool.and_eq_false_iff]
  refine ⟨h1, ?_, h2, ?_⟩
  · simp [appStartSubmit, h1]
  · simp [dashStartSubmit, h2]

/-- C4 witness: a MoCA score of 31 with one file and a valid age is refused
by both gates. -/
theorem c4_out_of_range_rejected_witness :
    appCanSubmit ["scan.nii"] (some 31) (some 70) = false ∧
    appStartSubmit ["scan.nii"] (some 31) (some 70) "F" = none ∧
    dashCanSubmit ["scan.nii"] (some 31) (some 70) = false ∧
    dashStartSubmit ["scan.nii"] (some 31) (some 70) "F" = none :=
  c4_out_of_range_rejected ["scan.nii"] (some 31) (some 70) "F"
    (Or.inl ⟨31, rfl, Or.inr (by decide)⟩)

/-- C7: `submitCase` fails with an error carrying the HTTP status exactly
when the response is non-success; on a success response it returns the
parsed body (containing the `job_id`); and in either case it consumes
exactly one response — there is no retry. -/
theorem c7_submitCase_error_iff (r : FetchResponse SubmitResponse)
    (rest : List (FetchResponse SubmitResponse)) :
    ((∃ e, submitCase r = .error e ∧ e.httpStatus = r.status) ↔ r.ok = false) ∧
    (r.ok = true → submitCase r = .ok r.body) ∧
    submitCaseRun (r :: rest) = some (submitCase r, rest) := by
  cases hr : r.ok <;> simp [submitCase, submitCaseRun, hr]

/-- C7 witness: a success response with body `job_id = "abc123"` is returned
as-is, and a 500 response produces an error carrying status 500. -/
theorem c7_submitCase_error_iff_witness :
    submitCase { ok := true, status := 200, body := { job_id := "abc123" } } =
      .ok { job_id := "abc123" } ∧
    (∃ e, submitCase { ok := false, status := 500, body := { job_id := "" } } = .error e ∧
      e.httpStatus = 500) :=
  ⟨(c7_submitCase_error_iff { ok := true, status := 200, body := { job_id := "abc123" } }
      []).2.1 rfl,
   (c7_submitCase_error_iff { ok := false, status := 500, body := { job_id := "" } }
      []).1.mpr rfl⟩

/-- C9: `riskColor` is total — for any tier, including `undefined` and
arbitrary strings, it returns one of the five fixed class strings; any tier
other than the four enumerated ones (and `undefined`) gets the zinc
default; and the Dashboard copy agrees with the App copy everywhere. -/
theorem c9_riskColor_total (t : Option String) :
    (appRiskColor t = "bg-green-100 text-green-800 border-green-300" ∨
     appRiskColor t = "bg-yellow-100 text-yellow-800 border-yellow-300" ∨
     appRiskColor t = "bg-orange-100 text-orange-800 border-orange-300" ∨
     appRiskColor t = "bg-red-100 text-red-800 border-red-300" ∨
     appRiskColor t = "bg-zinc-100 text-zinc-800 border-zinc-300") ∧
    dashRiskColor t = appRiskColor t ∧
    (∀ s, t = some s → s ≠ "LOW" → s ≠ "MODERATE" → s ≠ "HIGH" → s ≠ "URGENT" →
      appRiskColor t = "bg-zinc-100 text-zinc-800 border-zinc-300") ∧
    appRiskColor none = "bg-zinc-100 text-zinc-800 border-zinc-300" := by
  refine ⟨?_, rfl, ?_, rfl⟩
  · unfold appRiskColor
    split_ifs <;> simp
  · intro s ht h1 h2 h3 h4
    subst ht
    simp [appRiskColor, h1, h2, h3, h4]

/-- C9 witness: the Dashboard's local tier name `CRITICAL` is not one of the
four runtime cases and falls through to the zinc default. -/
theorem c9_riskColor_total_witness :
    appRiskColor (some "CRITICAL") = "bg-zinc-100 text-zinc-800 border-zinc-300" ∧
    dashRiskColor (some "CRITICAL") = appRiskColor (some "CRITICAL") :=
  ⟨(c9_riskColor_total (some "CRITICAL")).2.2.1 "CRITICAL" rfl (by decide) (by decide)
      (by decide) (by decide),
   (c9_riskColor_total (some "CRITICAL")).2.1⟩

/-- C10: the trials request body is independent of all patient and analysis
state — any two invocations, whatever the patient data, analysis result and
search query, produce the identical constant request. -/
theorem c10_trials_request_constant (p1 p2 : PatientData)
    (a1 a2 : Option ResultBody) (q1 q2 : String) :
    searchTrialsBody p1 a1 q1 = searchTrialsBody p2 a2 q2 ∧
    searchTrialsBody p1 a1 q1 =
      { risk_tier := "MODERATE", imaging_findings := emptyImagingFindings,
        moca_score := 24, age := 70, sex := "F" } :=
  ⟨rfl, rfl⟩

/-- A concrete completed result payload whose note and imaging findings are
present but whose `hippocampal_volumes_ml` object is absent. -/
def payloadMissingHippo : ResultBody :=
  { note := some { imaging_findings := some (ImagingFindings.mk none (some 2)
      (some { left_pct := some 45, right_pct := some 52 })) } }

/-- C2 counterexample: on a payload whose `hippocampal_volumes_ml` is
absent, the App evidence panel — one of the result views the claim covers —
throws a `TypeError` instead of rendering placeholders. -/
theorem c2_counterexample :
    evidencePanelApp (some payloadMissingHippo) = .error .typeError := rfl

/-- C2 (amended): for every payload with note and imaging findings present
but `hippocampal_volumes_ml` absent, the Results page renders the
placeholder "N/A" for the hippocampal volume fields (left, right and
asymmetry) without throwing, while the App evidence panel dereferences the
missing object and throws a `TypeError`. -/
theorem c2_missing_hippo_rendering (mta : Option ℚ) (pcts : Option Percentiles)
    (body : ResultBody)
    (hb : body.note = some { imaging_findings := some (ImagingFindings.mk none mta pcts) }) :
    evidencePanelApp (some body) = .error .typeError ∧
    ∃ s1 s2 s3, resultsImaging body = ["N/A", s1, "N/A", s2, "N/A", s3] := by
  obtain ⟨noteField⟩ := body
  replace hb : noteField =
      some { imaging_findings := some (ImagingFindings.mk none mta pcts) } := hb
  subst hb
  exact ⟨rfl, _, _, _, rfl⟩

/-- C2 witness: the amended rendering theorem evaluated at a concrete
payload missing only the hippocampal volumes object. -/
theorem c2_missing_hippo_rendering_witness :
    evidencePanelApp (some payloadMissingHippo) = .error .typeError ∧
    ∃ s1 s2 s3, resultsImaging payloadMissingHippo = ["N/A", s1, "N/A", s2, "N/A", s3] :=
  c2_missing_hippo_rendering (some 2)
    (some { left_pct := some 45, right_pct := some 52 }) payloadMissingHippo rfl

/-- Tests whether a session event is a new submission. -/
def isSubmitEv : SessionEv → Bool
  | .submit _ => true
  | _ => false

theorem sessionRun_no_submit (evs : List SessionEv) (s : SessionState) (h : Nat)
    (htimer : s.timerFor = some h) (hno : ∀ e ∈ evs, isSubmitEv e = false) :
    (sessionRun s evs).timerFor = some h ∧
    ∃ tail, (sessionRun s evs).requestLog = s.requestLog ++ tail ∧ ∀ r ∈ tail, r = h := by
  induction evs generalizing s with
  | nil => exact ⟨htimer, [], by simp [sessionRun], by simp⟩
  | cons e rest ih =>
    have hrest : ∀ e ∈ rest, isSubmitEv e = false := fun e he => hno e (by simp [he])
    cases e with
    | tick =>
        have hstep : sessionStep s .tick =
            { s with pending := s.pending ++ [h], requestLog := s.requestLog ++ [h] } := by
          simp [sessionStep, htimer]
        have h2 := ih { s with pending := s.pending ++ [h], requestLog := s.requestLog ++ [h] }
          htimer hrest
        obtain ⟨ht, tail, hlog, htail⟩ := h2
        rw [sessionRun, List.foldl_cons, hstep]
        refine ⟨ht, h :: tail, ?_, ?_⟩
        · rw [sessionRun] at hlog
          rw [hlog]
          simp
        · intro r hr
          rcases List.mem_cons.mp hr with hr | hr
          · exact hr
          · exact htail r hr
    | resolve g =>
        by_cases hg : g ∈ s.pending
        · have hstep : sessionStep s (.resolve g) =
              { s with pending := s.pending.erase g, statusOf := some g } := by
            simp [sessionStep, hg]
          have h2 := ih { s with pending := s.pending.erase g, statusOf := some g }
            htimer hrest
          rw [sessionRun, List.foldl_cons, hstep]
          exact h2
        · have hstep : sessionStep s (.resolve g) = s := by
            simp [sessionStep, hg]
          have h2 := ih s htimer hrest
          rw [sessionRun, List.foldl_cons, hstep]
          exact h2
    | submit g =>
        exact absurd (hno (SessionEv.submit g) (by simp)) (by simp [isSubmitEv])

/-- C8 (amended): when a new submission supersedes the current job, the old
interval is cleared and the new handle installed, and from that point on —
as long as no further submission occurs — every status request issued is
for the new handle: the old polling loop is cancelled. (A status response
of the old handle already in flight at supersession is, however, still
stored when it arrives; see the counterexample.) -/
theorem c8_supersession (s : SessionState) (h : Nat) (evs : List SessionEv)
    (hno : ∀ e ∈ evs, isSubmitEv e = false) :
    (sessionStep s (.submit h)).timerFor = some h ∧
    (sessionStep s (.submit h)).jobId = some h ∧
    (sessionRun (sessionStep s (.submit h)) evs).timerFor = some h ∧
    ∃ tail, (sessionRun (sessionStep s (.submit h)) evs).requestLog =
        (sessionStep s (.submit h)).requestLog ++ tail ∧ ∀ r ∈ tail, r = h := by
  have h2 := sessionRun_no_submit evs (sessionStep s (.submit h)) h (by simp [sessionStep]) hno
  exact ⟨by simp [sessionStep], by simp [sessionStep], h2.1, h2.2⟩

/-- C8 witness: handle 1 is submitted and superseded by handle 2; over a
subsequent tick and the resolution of handle 1's stale request, the timer
stays on handle 2 and the only new status request is for handle 2. -/
theorem c8_supersession_witness :
    (sessionStep (sessionRun initSession [.submit 1]) (.submit 2)).timerFor = some 2 ∧
    (sessionStep (sessionRun initSession [.submit 1]) (.submit 2)).jobId = some 2 ∧
    (sessionRun (sessionStep (sessionRun initSession [.submit 1]) (.submit 2))
      [.tick, .resolve 1]).timerFor = some 2 ∧
    ∃ tail,
      (sessionRun (sessionStep (sessionRun initSession [.submit 1]) (.submit 2))
        [.tick, .resolve 1]).requestLog =
        (sessionStep (sessionRun initSession [.submit 1]) (.submit 2)).requestLog ++ tail ∧
      ∀ r ∈ tail, r = 2 :=
  c8_supersession (sessionRun initSession [.submit 1]) 2 [.tick, .resolve 1] (by decide)

/-- C8 counterexample: handle 1's first status request is in flight when
handle 2 supersedes it; the stored status is reset at supersession, but
when the stale response arrives it is stored anyway — the observable state
then holds handle 1's status while handle 2 is the assigned job, refuting
the claim that no status update for the old handle is stored after the new
handle is assigned. -/
theorem c8_counterexample :
    (sessionRun initSession [.submit 1, .submit 2]).jobId = some 2 ∧
    (sessionRun initSession [.submit 1, .submit 2]).statusOf = none ∧
    (sessionRun initSession [.submit 1, .submit 2, .resolve 1]).jobId = some 2 ∧
    (sessionRun initSession [.submit 1, .submit 2, .resolve 1]).statusOf = some 1 ∧
    (some 1 : Option Nat) ≠ some 2 :=
  ⟨rfl, rfl, rfl, rfl, by decide⟩
